import Mathlib

/-!
Verification development for the exaspoon-db-mcp gateway
(`exaspoon_next/mcp/exaspoon-db-mcp`): a shallow embedding of the Rust
sources `models.rs`, `embedding.rs`, `server.rs` and `supabase.rs`, together
with theorems settling the specification's claims about embedding policy,
limit normalization, upsert-by-natural-key, list filtering and error
propagation.

Modelling conventions:
* `serde_json::Value` becomes the inductive `Json`; `f32`/`f64` become
  `Float` (the gateway never computes on them, only passes them through).
* The external embedding provider and the row store are modelled as
  deterministic oracles (`Provider`, `StoreOracle`); each operation returns
  its result together with the ordered trace of external calls it issued,
  which is how "exactly one embedding call" style claims are stated.
* Rust `Result<T, anyhow::Error>` becomes `Except String T`; the MCP error
  type becomes `McpError` with its two constructors (invalid-params and
  internal).
-/

namespace Exaspoon

/-- JSON values, the shallow embedding of `serde_json::Value`. -/
inductive Json where
  | null
  | bool (b : Bool)
  | num (n : Nat)
  | numF (x : Float)
  | str (s : String)
  | arr (xs : List Json)
  | obj (fields : List (String × Json))

/-- `value.get(key)` on a JSON object: first field with the given name. -/
def Json.get (j : Json) (key : String) : Option Json :=
  match j with
  | .obj fields => fields.lookup key
  | _ => none

/-- `Value::as_str`. -/
def Json.asStr : Json → Option String
  | .str s => some s
  | _ => none

/-- Embedding vectors: `Vec<f32>`. -/
abbrev Embedding := List Float

/-! ### Rust string primitives

Structural embeddings of the `str` methods the gateway uses, over the
character list of a `String`, so that every claim can be evaluated on
concrete inputs inside the kernel. -/

/-- Rust `str::is_empty`. -/
def strIsEmpty (s : String) : Bool := s.toList.isEmpty

/-- Rust `str::trim`: drop whitespace from both ends. -/
def rustTrim (s : String) : String :=
  String.mk
    (((s.toList.dropWhile Char.isWhitespace).reverse.dropWhile
        Char.isWhitespace).reverse)

/-- Rust `str::to_lowercase` (ASCII case mapping). -/
def lowerStr (s : String) : String := String.mk (s.toList.map Char.toLower)

/-- Occurrence of `needle` as a contiguous sublist of the haystack. -/
def strContainsAux (needle : List Char) : List Char → Bool
  | [] => needle.isEmpty
  | c :: rest => (List.isPrefixOf needle (c :: rest)) || strContainsAux needle rest

/-- Rust `str::contains(&str)`: substring occurrence. -/
def strContains (hay needle : String) : Bool :=
  strContainsAux needle.toList hay.toList

/-! ## models.rs -/

/-- `TransactionDirection` (models.rs). -/
inductive TransactionDirection where
  | income | expense | transfer
deriving DecidableEq

def TransactionDirection.asRef : TransactionDirection → String
  | .income => "income"
  | .expense => "expense"
  | .transfer => "transfer"

/-- `CategoryKind` (models.rs). -/
inductive CategoryKind where
  | income | expense | transfer
deriving DecidableEq

def CategoryKind.asRef : CategoryKind → String
  | .income => "income"
  | .expense => "expense"
  | .transfer => "transfer"

/-- `AccountType` (models.rs). -/
inductive AccountType where
  | onchain | offchain
deriving DecidableEq

def AccountType.asRef : AccountType → String
  | .onchain => "onchain"
  | .offchain => "offchain"

/-- `CreateTransactionInput` (models.rs). -/
structure CreateTransactionInput where
  account_id : String
  amount : Float
  currency : String
  direction : TransactionDirection
  occurred_at : String
  description : Option String
  raw_source : Option String

/-- `SearchSimilarInput` (models.rs); `limit : Option<u32>` as `Option Nat`. -/
structure SearchSimilarInput where
  query : String
  limit : Option Nat

/-- `UpsertCategoryInput` (models.rs). -/
structure UpsertCategoryInput where
  name : String
  kind : Option CategoryKind
  description : Option String

/-- `ListAccountsInput` (models.rs). -/
structure ListAccountsInput where
  type : Option AccountType
  search : Option String

/-- `UpsertAccountInput` (models.rs). -/
structure UpsertAccountInput where
  name : String
  type : AccountType
  currency : String
  network : Option String
  institution : Option String

/-! ## embedding.rs -/

/-- The external inference endpoint as a deterministic oracle: for a given
input text it either fails (transport error or non-success HTTP response,
the error message being discarded by the caller) or returns the list of
embedding candidates in `response.data`. -/
abbrev Provider := String → Except String (List Embedding)

/-- The two failure modes of `EmbeddingService::embed`. -/
inductive EmbedError where
  | requestFailed
  | noData
deriving DecidableEq

/-- The `anyhow!` message carried by each `EmbedError`. -/
def EmbedError.message : EmbedError → String
  | .requestFailed => "embedding request failed"
  | .noData => "OpenAI did not return embedding data"

/-- Result of an embedder method together with the ordered list of texts
sent to the external provider. -/
structure EmbedOut (α : Type) where
  result : Except EmbedError α
  calls : List String
deriving Nonempty

namespace EmbeddingService

/-- `EmbeddingService::embed` (embedding.rs lines 44-78): one provider call
with the given text; a failed call becomes `requestFailed`, an empty
candidate list becomes `noData`, otherwise the first candidate is returned. -/
def embed (provider : Provider) (text : String) : EmbedOut Embedding :=
  { result :=
      match provider text with
      | .error _ => .error .requestFailed
      | .ok data =>
        match data with
        | [] => .error .noData
        | item :: _ => .ok item
    calls := [text] }

/-- `EmbeddingService::maybe_embed` (embedding.rs lines 81-96): embeds the
given text (untrimmed) when it is present and non-blank after trimming,
otherwise returns no vector without calling the provider. -/
def maybeEmbed (provider : Provider) (text : Option String) :
    EmbedOut (Option Embedding) :=
  match text with
  | some value =>
    if !strIsEmpty (rustTrim value) then
      let e := embed provider value
      { result := e.result.map some, calls := e.calls }
    else
      { result := .ok none, calls := [] }
  | none => { result := .ok none, calls := [] }

end EmbeddingService

/-! ## server.rs -/

/-- `rmcp::ErrorData` as produced by this server: either
`McpError::invalid_params(message, data)` or
`McpError::internal_error(message, data)`. -/
inductive McpError where
  | invalidParams (message : String) (data : Option Json)
  | internalError (message : String) (data : Option Json)

/-- `internal_error` (server.rs lines 264-269). -/
def internal_error (action : String) (err : String) : McpError :=
  .internalError ("Failed to " ++ action)
    (some (.obj [("details", .str err)]))

/-- One call made by the server on its `Database` collaborator, with the
arguments it was given. -/
inductive DbCall where
  | insertTransaction (input : CreateTransactionInput)
      (embedding : Option Embedding)
  | upsertCategory (input : UpsertCategoryInput)
      (embedding : Option Embedding)
  | upsertAccount (input : UpsertAccountInput)
  | listAccounts (params : ListAccountsInput)
  | searchSimilarTransactions (embedding : Embedding) (limit : Option Nat)
  | searchSimilarCategories (embedding : Embedding) (limit : Option Nat)

/-- The `Database` trait (supabase.rs lines 19-43) as a deterministic
oracle: each method maps its arguments to a result. -/
structure Database where
  insertTransaction : CreateTransactionInput → Option Embedding →
    Except String Json
  upsertCategory : UpsertCategoryInput → Option Embedding →
    Except String Json
  upsertAccount : UpsertAccountInput → Except String Json
  listAccounts : ListAccountsInput → Except String (List Json)
  searchSimilarTransactions : Embedding → Option Nat →
    Except String (List Json)
  searchSimilarCategories : Embedding → Option Nat →
    Except String (List Json)

/-- Outcome of one tool invocation: the MCP-level result (the structured
JSON content on success) together with the traces of embedding-provider
texts and `Database` calls issued, in order. -/
structure ServerOut where
  result : Except McpError Json
  embedCalls : List String
  dbCalls : List DbCall

namespace ExaspoonDbServer

/-- `ExaspoonDbServer::create_transaction` (server.rs lines 38-68). -/
def createTransaction (provider : Provider) (db : Database)
    (input : CreateTransactionInput) : ServerOut :=
  let e := EmbeddingService.maybeEmbed provider input.description
  match e.result with
  | .error err =>
    { result := .error (internal_error "generate transaction embedding" err.message)
      embedCalls := e.calls, dbCalls := [] }
  | .ok embedding =>
    match db.insertTransaction input embedding with
    | .error err =>
      { result := .error (internal_error "insert transaction" err)
        embedCalls := e.calls
        dbCalls := [.insertTransaction input embedding] }
    | .ok record =>
      { result := .ok (.obj [("transaction", record)])
        embedCalls := e.calls
        dbCalls := [.insertTransaction input embedding] }

/-- `ExaspoonDbServer::search_similar_transactions` (server.rs lines 72-110). -/
def searchSimilarTransactions (provider : Provider) (db : Database)
    (input : SearchSimilarInput) : ServerOut :=
  if strIsEmpty (rustTrim input.query) then
    { result := .error (.invalidParams "query must not be empty"
        (some (.obj [("field", .str "query")])))
      embedCalls := [], dbCalls := [] }
  else
    let e := EmbeddingService.embed provider (rustTrim input.query)
    match e.result with
    | .error err =>
      { result := .error (internal_error "embed query text" err.message)
        embedCalls := e.calls, dbCalls := [] }
    | .ok embedding =>
      match db.searchSimilarTransactions embedding input.limit with
      | .error err =>
        { result := .error (internal_error "search similar transactions" err)
          embedCalls := e.calls
          dbCalls := [.searchSimilarTransactions embedding input.limit] }
      | .ok rows =>
        { result := .ok (.obj [("matches", .arr rows)])
          embedCalls := e.calls
          dbCalls := [.searchSimilarTransactions embedding input.limit] }

/-- `ExaspoonDbServer::upsert_category` (server.rs lines 114-145). -/
def upsertCategory (provider : Provider) (db : Database)
    (input : UpsertCategoryInput) : ServerOut :=
  let descriptionSource := input.description.getD input.name
  let e := EmbeddingService.embed provider descriptionSource
  match e.result with
  | .error err =>
    { result := .error (internal_error "generate category embedding" err.message)
      embedCalls := e.calls, dbCalls := [] }
  | .ok embedding =>
    match db.upsertCategory input (some embedding) with
    | .error err =>
      { result := .error (internal_error "upsert category" err)
        embedCalls := e.calls
        dbCalls := [.upsertCategory input (some embedding)] }
    | .ok category =>
      { result := .ok (.obj [("category", category)])
        embedCalls := e.calls
        dbCalls := [.upsertCategory input (some embedding)] }

/-- `ExaspoonDbServer::search_similar_categories` (server.rs lines 149-187). -/
def searchSimilarCategories (provider : Provider) (db : Database)
    (input : SearchSimilarInput) : ServerOut :=
  if strIsEmpty (rustTrim input.query) then
    { result := .error (.invalidParams "query must not be empty"
        (some (.obj [("field", .str "query")])))
      embedCalls := [], dbCalls := [] }
  else
    let e := EmbeddingService.embed provider (rustTrim input.query)
    match e.result with
    | .error err =>
      { result := .error (internal_error "embed query text" err.message)
        embedCalls := e.calls, dbCalls := [] }
    | .ok embedding =>
      match db.searchSimilarCategories embedding input.limit with
      | .error err =>
        { result := .error (internal_error "search similar categories" err)
          embedCalls := e.calls
          dbCalls := [.searchSimilarCategories embedding input.limit] }
      | .ok rows =>
        { result := .ok (.obj [("matches", .arr rows)])
          embedCalls := e.calls
          dbCalls := [.searchSimilarCategories embedding input.limit] }

/-- `ExaspoonDbServer::list_accounts` (server.rs lines 191-212). -/
def listAccounts (db : Database) (input : ListAccountsInput) : ServerOut :=
  match db.listAccounts input with
  | .error err =>
    { result := .error (internal_error "list accounts" err)
      embedCalls := [], dbCalls := [.listAccounts input] }
  | .ok accounts =>
    { result := .ok (.obj [("accounts", .arr accounts)])
      embedCalls := [], dbCalls := [.listAccounts input] }

/-- `ExaspoonDbServer::upsert_account` (server.rs lines 216-246): the
embedding of the account name is computed first and bound to `_embedding`,
never passed on. -/
def upsertAccount (provider : Provider) (db : Database)
    (input : UpsertAccountInput) : ServerOut :=
  let e := EmbeddingService.embed provider input.name
  match e.result with
  | .error err =>
    { result := .error (internal_error "generate account embedding" err.message)
      embedCalls := e.calls, dbCalls := [] }
  | .ok _embedding =>
    match db.upsertAccount input with
    | .error err =>
      { result := .error (internal_error "upsert account" err)
        embedCalls := e.calls, dbCalls := [.upsertAccount input] }
    | .ok account =>
      { result := .ok (.obj [("account", account)])
        embedCalls := e.calls, dbCalls := [.upsertAccount input] }

end ExaspoonDbServer

/-! ## supabase.rs -/

/-- A `select` built through the supabase client builder: table, equality
filters (in application order), optional `order(column, ascending)` and
optional `limit`. -/
structure SelectQuery where
  table : String
  filters : List (String × String)
  order : Option (String × Bool)
  limit : Option Nat

/-- One call the gateway makes on the row store (supabase client or the
raw RPC HTTP endpoint), with its arguments. -/
inductive StoreCall where
  | select (q : SelectQuery)
  | insert (table : String) (payload : Json)
  | update (table : String) (id : String) (payload : Json)
  | rpc (function : String) (payload : Json)

/-- The row-store backend as a deterministic oracle: `select` yields rows,
`insert` yields the raw identifier string the supabase client returns,
`update` yields unit, `rpc` yields the parsed row array of a successful
call (an `.error` covers transport failure, non-2xx status and parse
failure, with the message the gateway would for the wrapped cause). -/
structure StoreOracle where
  select : SelectQuery → Except String (List Json)
  insert : String → Json → Except String String
  update : String → String → Json → Except String Unit
  rpc : String → Json → Except String (List Json)

/-- Serialization of an `Option<Vec<f32>>` field value. -/
def embeddingJson : Option Embedding → Json
  | none => .null
  | some v => .arr (v.map .numF)

/-- Serialization of an `Option<String>` field value. -/
def optStrJson : Option String → Json
  | none => .null
  | some s => .str s

namespace SupabaseGateway

/-- `SupabaseGateway::normalize_id` (supabase.rs lines 402-404): the Rust
trim_matches with a double-quote pattern — strips every leading and
trailing double-quote character. -/
def normalize_id (id : String) : String :=
  String.mk (((id.toList.dropWhile (· = '"')).reverse.dropWhile (· = '"')).reverse)

/-- `SupabaseGateway::extract_id` (supabase.rs lines 391-400). -/
def extract_id (value : Json) : Except String String :=
  match (value.get "id").bind Json.asStr with
  | some id => .ok id
  | none => .error "row missing id column"

/-- `SupabaseGateway::fetch_first` (supabase.rs lines 348-368): one
`select` limited to one row with the given equality filters; returns the
first row, if any. -/
def fetch_first (store : StoreOracle) (table : String)
    (filters : List (String × String)) :
    Except String (Option Json) × List StoreCall :=
  let q : SelectQuery := { table := table, filters := filters,
                           order := none, limit := some 1 }
  (match store.select q with
   | .error err => .error ("failed to query " ++ table ++ ": " ++ err)
   | .ok rows => .ok rows.head?,
   [.select q])

/-- `SupabaseGateway::fetch_by_id` (supabase.rs lines 380-389). -/
def fetch_by_id (store : StoreOracle) (table : String) (id : String) :
    Except String Json × List StoreCall :=
  let (r, t) := fetch_first store table [("id", id)]
  (match r with
   | .error e => .error e
   | .ok (some row) => .ok row
   | .ok none => .error (table ++ " record " ++ id ++ " was not found"),
   t)

/-- `SupabaseGateway::fetch_account` (supabase.rs lines 371-377). -/
def fetch_account (store : StoreOracle) (name : String)
    (account_type : AccountType) : Except String (Option Json) × List StoreCall :=
  fetch_first store "accounts" [("name", name), ("type", account_type.asRef)]

/-- `SupabaseGateway::insert_and_fetch` (supabase.rs lines 327-345):
insert the payload, normalize the returned identifier and re-fetch the
full row by it. -/
def insert_and_fetch (store : StoreOracle) (table : String) (payload : Json) :
    Except String Json × List StoreCall :=
  match store.insert table payload with
  | .error err =>
    (.error ("failed to insert into " ++ table ++ ": " ++ err),
     [.insert table payload])
  | .ok id =>
    let (r, t) := fetch_by_id store table (normalize_id id)
    (r, .insert table payload :: t)

/-- The `json!` payload built by `insert_transaction`
(supabase.rs lines 136-145). -/
def transactionPayload (input : CreateTransactionInput)
    (embedding : Option Embedding) : Json :=
  .obj [("account_id", .str input.account_id),
        ("amount", .numF input.amount),
        ("currency", .str input.currency),
        ("direction", .str input.direction.asRef),
        ("occurred_at", .str input.occurred_at),
        ("description", optStrJson input.description),
        ("raw_source", optStrJson input.raw_source),
        ("embedding", embeddingJson embedding)]

/-- `SupabaseGateway::insert_transaction` (supabase.rs lines 128-152). -/
def insert_transaction (store : StoreOracle) (input : CreateTransactionInput)
    (embedding : Option Embedding) : Except String Json × List StoreCall :=
  insert_and_fetch store "transactions" (transactionPayload input embedding)

/-- The `json!` payload built by `upsert_category`
(supabase.rs lines 163-172): the stored description falls back to the
name when absent. -/
def categoryPayload (input : UpsertCategoryInput)
    (embedding : Option Embedding) : Json :=
  .obj [("name", .str input.name),
        ("kind", .str (input.kind.getD .expense).asRef),
        ("description", .str (input.description.getD input.name)),
        ("embedding", embeddingJson embedding)]

/-- `SupabaseGateway::upsert_category` (supabase.rs lines 155-197):
read-then-write upsert keyed by `name`. -/
def upsert_category (store : StoreOracle) (input : UpsertCategoryInput)
    (embedding : Option Embedding) : Except String Json × List StoreCall :=
  let payload := categoryPayload input embedding
  let (f, t1) := fetch_first store "categories" [("name", input.name)]
  match f with
  | .error e => (.error e, t1)
  | .ok (some existing) =>
    match extract_id existing with
    | .error e => (.error e, t1)
    | .ok id =>
      match store.update "categories" id payload with
      | .error err =>
        (.error ("failed to update category: " ++ err),
         t1 ++ [.update "categories" id payload])
      | .ok _ =>
        let (r, t2) := fetch_by_id store "categories" id
        (r, t1 ++ [.update "categories" id payload] ++ t2)
  | .ok none =>
    let (r, t2) := insert_and_fetch store "categories" payload
    (r, t1 ++ t2)

/-- The `json!` payload built by `upsert_account`
(supabase.rs lines 204-210); it carries no embedding field. -/
def accountPayload (input : UpsertAccountInput) : Json :=
  .obj [("name", .str input.name),
        ("type", .str input.type.asRef),
        ("currency", .str input.currency),
        ("network", optStrJson input.network),
        ("institution", optStrJson input.institution)]

/-- `SupabaseGateway::upsert_account` (supabase.rs lines 200-232):
read-then-write upsert keyed by `(name, type)`. -/
def upsert_account (store : StoreOracle) (input : UpsertAccountInput) :
    Except String Json × List StoreCall :=
  let payload := accountPayload input
  let (f, t1) := fetch_account store input.name input.type
  match f with
  | .error e => (.error e, t1)
  | .ok (some existing) =>
    match extract_id existing with
    | .error e => (.error e, t1)
    | .ok id =>
      match store.update "accounts" id payload with
      | .error err =>
        (.error ("failed to update account: " ++ err),
         t1 ++ [.update "accounts" id payload])
      | .ok _ =>
        let (r, t2) := fetch_by_id store "accounts" id
        (r, t1 ++ [.update "accounts" id payload] ++ t2)
  | .ok none =>
    let (r, t2) := insert_and_fetch store "accounts" payload
    (r, t1 ++ t2)

/-- The needle computed by `list_accounts` (supabase.rs lines 252-258):
`search.as_ref().map(trim).filter(non-empty).map(to_lowercase)`. -/
def searchNeedle (search : Option String) : Option String :=
  match search with
  | some value =>
    let t := rustTrim value
    if strIsEmpty t then none else some (lowerStr t)
  | none => none

/-- The per-row predicate of `list_accounts` (supabase.rs lines 261-266):
`row.get("name").and_then(as_str).map(|v| v.to_lowercase().contains(needle)).unwrap_or(false)`. -/
def nameMatches (needle : String) (row : Json) : Bool :=
  (((row.get "name").bind Json.asStr).map
    (fun value => strContains (lowerStr value) needle)).getD false

/-- `SupabaseGateway::list_accounts` (supabase.rs lines 235-276): ordered
select with optional store-side type equality filter, then optional
client-side case-insensitive name-substring filtering. -/
def list_accounts (store : StoreOracle) (params : ListAccountsInput) :
    Except String (List Json) × List StoreCall :=
  let q : SelectQuery :=
    { table := "accounts"
      filters := match params.type with
        | some kind => [("type", kind.asRef)]
        | none => []
      order := some ("name", true)
      limit := none }
  (match store.select q with
   | .error err => .error ("failed to list accounts: " ++ err)
   | .ok rows =>
     .ok (match searchNeedle params.search with
          | some needle => rows.filter (nameMatches needle)
          | none => rows),
   [.select q])

/-- `resolve_limit` (supabase.rs lines 465-467):
`limit.unwrap_or(5).clamp(1, 25)` with Rust `Ord::clamp` semantics. -/
def resolve_limit (limit : Option Nat) : Nat :=
  let x := limit.getD 5
  if x < 1 then 1 else if x > 25 then 25 else x

/-- The RPC payload built by both similarity searches
(supabase.rs lines 289-292 and 311-314). -/
def rpcPayload (embedding : Embedding) (limit : Option Nat) : Json :=
  .obj [("query_embedding", .arr (embedding.map .numF)),
        ("match_count", .num (resolve_limit limit))]

/-- `SupabaseGateway::search_similar_transactions`
(supabase.rs lines 279-299). -/
def search_similar_transactions (store : StoreOracle)
    (embedding : Embedding) (limit : Option Nat) :
    Except String (List Json) × List StoreCall :=
  let payload := rpcPayload embedding limit
  (store.rpc "search_similar_transactions" payload,
   [.rpc "search_similar_transactions" payload])

/-- `SupabaseGateway::search_similar_categories`
(supabase.rs lines 302-322). -/
def search_similar_categories (store : StoreOracle)
    (embedding : Embedding) (limit : Option Nat) :
    Except String (List Json) × List StoreCall :=
  let payload := rpcPayload embedding limit
  (store.rpc "search_similar_categories" payload,
   [.rpc "search_similar_categories" payload])

end SupabaseGateway

/-- The `Database` implementation backed by `SupabaseGateway` — how the
production server wires the trait methods to the gateway. -/
def gatewayDatabase (store : StoreOracle) : Database :=
  { insertTransaction := fun i e => (SupabaseGateway.insert_transaction store i e).1
    upsertCategory := fun i e => (SupabaseGateway.upsert_category store i e).1
    upsertAccount := fun i => (SupabaseGateway.upsert_account store i).1
    listAccounts := fun p => (SupabaseGateway.list_accounts store p).1
    searchSimilarTransactions := fun e l =>
      (SupabaseGateway.search_similar_transactions store e l).1
    searchSimilarCategories := fun e l =>
      (SupabaseGateway.search_similar_categories store e l).1 }

/-! ## Concrete collaborators for evaluating claims on explicit inputs
(mirroring the repository's own `FakeEmbedder` / `FakeDatabase` doubles). -/

/-- A provider that always returns a single candidate vector. -/
def okProvider : Provider := fun _ => .ok [[]]

/-- A `Database` double whose every method succeeds with a fixed row. -/
def okDb : Database :=
  { insertTransaction := fun _ _ => .ok (.obj [("id", .str "txn-default")])
    upsertCategory := fun _ _ => .ok (.obj [("id", .str "cat-default")])
    upsertAccount := fun _ => .ok (.obj [("id", .str "acct-default")])
    listAccounts := fun _ => .ok []
    searchSimilarTransactions := fun _ _ => .ok []
    searchSimilarCategories := fun _ _ => .ok [] }

/-- A store whose selects find nothing, whose inserts are accepted with a
quoted identifier, and whose updates and RPC calls succeed. -/
def emptyStore : StoreOracle :=
  { select := fun _ => .ok []
    insert := fun _ _ => .ok "\"row-1\""
    update := fun _ _ _ => .ok ()
    rpc := fun _ _ => .ok [] }

/-! ## Claims -/

/-- Helper: `embed` always records exactly one provider call with the
given text. -/
theorem embed_calls_eq (provider : Provider) (text : String) :
    (EmbeddingService.embed provider text).calls = [text] := rfl

/-- The `create_transaction` input of the repository's
`create_transaction_embeds_description` test, with the description padded
by whitespace. -/
def paddedCoffeeInput : CreateTransactionInput :=
  { account_id := "acct-1", amount := 42.0, currency := "USD",
    direction := .expense, occurred_at := "2024-01-02T03:04:05Z",
    description := some " Coffee ", raw_source := none }

/-- C1 counterexample: the description " Coffee " is present and non-blank
after trimming, yet the single embedding call carries the description
untrimmed — not the trimmed text "Coffee" the claim requires
(`maybe_embed` trims only for the blank check and embeds the original
value). -/
theorem create_transaction_embeds_untrimmed :
    rustTrim " Coffee " = "Coffee" ∧
    strIsEmpty (rustTrim " Coffee ") = false ∧
    (ExaspoonDbServer.createTransaction okProvider okDb
        paddedCoffeeInput).embedCalls = [" Coffee "] ∧
    (ExaspoonDbServer.createTransaction okProvider okDb
        paddedCoffeeInput).embedCalls ≠ [rustTrim " Coffee "] :=
  ⟨by decide, by decide, rfl, by decide⟩

/-- C1 (amended): for a description present and non-blank after trimming,
`create_transaction` issues exactly one embedding call carrying the
description exactly as provided (untrimmed; trimming is used only for the
blank check) and persists its result with the inserted row; for an absent
or blank description no embedding call occurs and the persisted embedding
is absent (the `embedding` payload field is null). -/
theorem create_transaction_embedding_policy (provider : Provider)
    (db : Database) (input : CreateTransactionInput) :
    (match input.description with
     | none =>
       (ExaspoonDbServer.createTransaction provider db input).embedCalls
         = [] ∧
       (ExaspoonDbServer.createTransaction provider db input).dbCalls =
         [.insertTransaction input none]
     | some d =>
       if strIsEmpty (rustTrim d) then
         (ExaspoonDbServer.createTransaction provider db input).embedCalls
           = [] ∧
         (ExaspoonDbServer.createTransaction provider db input).dbCalls =
           [.insertTransaction input none]
       else
         (ExaspoonDbServer.createTransaction provider db input).embedCalls
           = [d] ∧
         match (EmbeddingService.embed provider d).result with
         | .ok v =>
           (ExaspoonDbServer.createTransaction provider db input).dbCalls =
             [.insertTransaction input (some v)]
         | .error _ =>
           (ExaspoonDbServer.createTransaction provider db input).dbCalls
             = []) ∧
    ∀ (store : StoreOracle) (emb : Option Embedding),
      (SupabaseGateway.insert_transaction store input emb).2.head? =
        some (.insert "transactions"
          (SupabaseGateway.transactionPayload input emb)) ∧
      (SupabaseGateway.transactionPayload input emb).get "embedding" =
        some (embeddingJson emb) := by
  constructor
  · cases hd : input.description with
    | none =>
      cases hdb : db.insertTransaction input none <;>
        simp [ExaspoonDbServer.createTransaction,
          EmbeddingService.maybeEmbed, hd, hdb]
    | some d =>
      by_cases hb : strIsEmpty (rustTrim d) = true
      · simp only [hb, if_true]
        cases hdb : db.insertTransaction input none <;>
          simp [ExaspoonDbServer.createTransaction,
            EmbeddingService.maybeEmbed, hd, hb, hdb]
      · have hb' : strIsEmpty (rustTrim d) = false := by
          revert hb; cases strIsEmpty (rustTrim d) <;> simp
        simp only [hb', if_false, Bool.false_eq_true]
        cases he : (EmbeddingService.embed provider d).result with
        | error e =>
          simp [ExaspoonDbServer.createTransaction,
            EmbeddingService.maybeEmbed, hd, hb', he, embed_calls_eq,
            Except.map]
        | ok v =>
          cases hdb : db.insertTransaction input (some v) <;>
            simp [ExaspoonDbServer.createTransaction,
              EmbeddingService.maybeEmbed, hd, hb', he, hdb,
              embed_calls_eq, Except.map]
  · intro store emb
    constructor
    · unfold SupabaseGateway.insert_transaction
        SupabaseGateway.insert_and_fetch
      cases hi : store.insert "transactions"
          (SupabaseGateway.transactionPayload input emb) <;>
        simp [hi]
    · rfl

/-- C2: `resolve_limit(L) = max(1, min(L.unwrap_or(5), 25))`, with
`resolve_limit(None) = 5`, `resolve_limit(Some 0) = 1`,
`resolve_limit(Some 100) = 25`, `resolve_limit(Some 7) = 7`; and both
`search_similar_transactions` and `search_similar_categories` pass
`resolve_limit(limit)` as the `match_count` of their vector-search RPC. -/
theorem resolve_limit_normalization :
    (∀ L : Option Nat,
      SupabaseGateway.resolve_limit L = max 1 (min (L.getD 5) 25)) ∧
    SupabaseGateway.resolve_limit none = 5 ∧
    SupabaseGateway.resolve_limit (some 0) = 1 ∧
    SupabaseGateway.resolve_limit (some 100) = 25 ∧
    SupabaseGateway.resolve_limit (some 7) = 7 ∧
    ∀ (store : StoreOracle) (emb : Embedding) (L : Option Nat),
      (SupabaseGateway.search_similar_transactions store emb L).2 =
        [.rpc "search_similar_transactions"
          (.obj [("query_embedding", .arr (emb.map .numF)),
                 ("match_count", .num (SupabaseGateway.resolve_limit L))])] ∧
      (SupabaseGateway.search_similar_categories store emb L).2 =
        [.rpc "search_similar_categories"
          (.obj [("query_embedding", .arr (emb.map .numF)),
                 ("match_count", .num (SupabaseGateway.resolve_limit L))])] := by
  refine ⟨fun L => ?_, rfl, rfl, rfl, rfl, fun store emb L => ⟨rfl, rfl⟩⟩
  cases L with
  | none => decide
  | some n =>
    show (if n < 1 then 1 else if n > 25 then 25 else n) = max 1 (min n 25)
    split
    · omega
    · split <;> omega

/-- C3: for every query that is empty or whitespace-only, both search
operations return the invalid-params error naming the `query` field, with
no embedding call and no store call. -/
theorem blank_query_rejected (provider : Provider) (db : Database)
    (input : SearchSimilarInput)
    (h : strIsEmpty (rustTrim input.query) = true) :
    ExaspoonDbServer.searchSimilarTransactions provider db input =
      { result := .error (.invalidParams "query must not be empty"
          (some (.obj [("field", .str "query")])))
        embedCalls := [], dbCalls := [] } ∧
    ExaspoonDbServer.searchSimilarCategories provider db input =
      { result := .error (.invalidParams "query must not be empty"
          (some (.obj [("field", .str "query")])))
        embedCalls := [], dbCalls := [] } := by
  constructor <;>
    simp [ExaspoonDbServer.searchSimilarTransactions,
      ExaspoonDbServer.searchSimilarCategories, h]

/-- Witness for C3 at the whitespace-only query from the repository's own
test (`rejects_blank_transaction_query`). -/
theorem blank_query_rejected_witness :
    strIsEmpty (rustTrim "   ") = true ∧
    (ExaspoonDbServer.searchSimilarTransactions okProvider okDb
        { query := "   ", limit := none }).embedCalls = [] := by
  refine ⟨by decide, ?_⟩
  rw [(blank_query_rejected okProvider okDb
    { query := "   ", limit := none } (by decide)).1]

/-- C7: `upsert_category` embeds the description when one is present and
the category name otherwise, with exactly one embedding call per
invocation. -/
theorem upsert_category_embedding_text (provider : Provider)
    (db : Database) (input : UpsertCategoryInput) :
    (ExaspoonDbServer.upsertCategory provider db input).embedCalls =
      [input.description.getD input.name] := by
  cases he : (EmbeddingService.embed provider
      (input.description.getD input.name)).result with
  | error e => simp [ExaspoonDbServer.upsertCategory, he, embed_calls_eq]
  | ok v =>
    cases hdb : db.upsertCategory input (some v) <;>
      simp [ExaspoonDbServer.upsertCategory, he, hdb, embed_calls_eq]

/-- Every insert or update in the trace carries a payload without an
`embedding` field. -/
def payloadsLackEmbedding (calls : List StoreCall) : Bool :=
  calls.all fun c =>
    match c with
    | .insert _ p => (p.get "embedding").isNone
    | .update _ _ p => (p.get "embedding").isNone
    | _ => true

/-- Helper: the account payload has no `embedding` field. -/
theorem accountPayload_no_embedding (input : UpsertAccountInput) :
    (SupabaseGateway.accountPayload input).get "embedding" = none := rfl

/-- C5: `upsert_account` always performs exactly one embedding call, on
the account name, before and regardless of any store interaction; the
resulting vector is discarded — the Database call carries no embedding and
no payload the gateway persists for an account has an embedding field. -/
theorem upsert_account_embeds_name_discarded (provider : Provider)
    (db : Database) (input : UpsertAccountInput) :
    (ExaspoonDbServer.upsertAccount provider db input).embedCalls =
      [input.name] ∧
    ((ExaspoonDbServer.upsertAccount provider db input).dbCalls = [] ∨
      (ExaspoonDbServer.upsertAccount provider db input).dbCalls =
        [.upsertAccount input]) ∧
    (SupabaseGateway.accountPayload input).get "embedding" = none ∧
    ∀ (store : StoreOracle),
      payloadsLackEmbedding (SupabaseGateway.upsert_account store input).2
        = true := by
  refine ⟨?_, ?_, rfl, ?_⟩
  · cases he : (EmbeddingService.embed provider input.name).result with
    | error e => simp [ExaspoonDbServer.upsertAccount, he, embed_calls_eq]
    | ok v =>
      cases hdb : db.upsertAccount input <;>
        simp [ExaspoonDbServer.upsertAccount, he, hdb, embed_calls_eq]
  · cases he : (EmbeddingService.embed provider input.name).result with
    | error e => simp [ExaspoonDbServer.upsertAccount, he]
    | ok v =>
      cases hdb : db.upsertAccount input <;>
        simp [ExaspoonDbServer.upsertAccount, he, hdb]
  · intro store
    simp only [SupabaseGateway.upsert_account, SupabaseGateway.fetch_account,
      SupabaseGateway.fetch_first]
    cases hs : store.select
        ⟨"accounts", [("name", input.name), ("type", input.type.asRef)],
          none, some 1⟩ with
    | error e => simp [payloadsLackEmbedding]
    | ok rows =>
      cases rows with
      | nil =>
        simp only [List.head?_nil]
        simp only [SupabaseGateway.insert_and_fetch,
          SupabaseGateway.fetch_by_id, SupabaseGateway.fetch_first]
        cases hi : store.insert "accounts"
            (SupabaseGateway.accountPayload input) <;>
          simp [payloadsLackEmbedding, accountPayload_no_embedding, hi]
      | cons row rest =>
        simp only [List.head?_cons]
        cases hid : SupabaseGateway.extract_id row with
        | error e => simp [hid, payloadsLackEmbedding]
        | ok i =>
          cases hu : store.update "accounts" i
              (SupabaseGateway.accountPayload input) <;>
            simp [hid, hu, payloadsLackEmbedding,
              accountPayload_no_embedding, SupabaseGateway.fetch_by_id,
              SupabaseGateway.fetch_first]

/-- C6: `list_accounts` issues exactly one store select carrying the
optional type filter as an equality predicate (with name-ascending
ordering requested from the store); the search filter is applied by the
gateway after retrieval, keeping exactly the rows whose lower-cased name
contains the lower-cased trimmed needle and excluding rows without a
string name field; and the server operation performs no embedding call. -/
theorem list_accounts_filtering (store : StoreOracle)
    (params : ListAccountsInput) :
    (SupabaseGateway.list_accounts store params).2 =
      [.select ⟨"accounts",
        (match params.type with
         | some kind => [("type", kind.asRef)]
         | none => []),
        some ("name", true), none⟩] ∧
    (SupabaseGateway.list_accounts store params).1 =
      (match store.select ⟨"accounts",
          (match params.type with
           | some kind => [("type", kind.asRef)]
           | none => []),
          some ("name", true), none⟩ with
       | .error err => .error ("failed to list accounts: " ++ err)
       | .ok rows =>
         .ok (match SupabaseGateway.searchNeedle params.search with
              | some needle =>
                rows.filter fun row =>
                  match (row.get "name").bind Json.asStr with
                  | some name => strContains (lowerStr name) needle
                  | none => false
              | none => rows)) ∧
    ∀ (db : Database) (input : ListAccountsInput),
      (ExaspoonDbServer.listAccounts db input).embedCalls = [] ∧
      (ExaspoonDbServer.listAccounts db input).dbCalls =
        [.listAccounts input] := by
  refine ⟨rfl, ?_, fun db inp => ?_⟩
  · cases hp : params.type with
    | none =>
      cases hs : store.select
          ⟨"accounts", [], some ("name", true), none⟩ with
      | error e => simp [SupabaseGateway.list_accounts, hp, hs]
      | ok rows =>
        cases hn : SupabaseGateway.searchNeedle params.search with
        | none => simp [SupabaseGateway.list_accounts, hp, hs, hn]
        | some needle =>
          simp only [SupabaseGateway.list_accounts, hp, hs, hn]
          refine congrArg Except.ok (List.filter_congr ?_)
          intro row _
          unfold SupabaseGateway.nameMatches
          cases (row.get "name").bind Json.asStr <;> rfl
    | some kind =>
      cases hs : store.select
          ⟨"accounts", [("type", kind.asRef)], some ("name", true), none⟩ with
      | error e => simp [SupabaseGateway.list_accounts, hp, hs]
      | ok rows =>
        cases hn : SupabaseGateway.searchNeedle params.search with
        | none => simp [SupabaseGateway.list_accounts, hp, hs, hn]
        | some needle =>
          simp only [SupabaseGateway.list_accounts, hp, hs, hn]
          refine congrArg Except.ok (List.filter_congr ?_)
          intro row _
          unfold SupabaseGateway.nameMatches
          cases (row.get "name").bind Json.asStr <;> rfl
  · cases h : db.listAccounts inp <;>
      simp [ExaspoonDbServer.listAccounts, h]

/-- C10: a search parameter that is blank after trimming is treated as
absent: `list_accounts` behaves identically to a call without a search
filter, and every row the store returns is passed through unchanged. -/
theorem blank_search_treated_absent (store : StoreOracle)
    (t : Option AccountType) (s : String)
    (h : strIsEmpty (rustTrim s) = true) :
    SupabaseGateway.list_accounts store { type := t, search := some s } =
      SupabaseGateway.list_accounts store { type := t, search := none } ∧
    ∀ rows,
      store.select ⟨"accounts",
        (match t with
         | some kind => [("type", kind.asRef)]
         | none => []),
        some ("name", true), none⟩ = .ok rows →
      (SupabaseGateway.list_accounts store
        { type := t, search := some s }).1 = .ok rows := by
  have hn : SupabaseGateway.searchNeedle (some s) = none := by
    simp [SupabaseGateway.searchNeedle, h]
  constructor
  · simp [SupabaseGateway.list_accounts, SupabaseGateway.searchNeedle, h]
  · intro rows hrows
    simp [SupabaseGateway.list_accounts, hn, hrows]

/-- Witness for C10: with a whitespace-only search string the call equals
the search-free call on a concrete store. -/
theorem blank_search_treated_absent_witness :
    strIsEmpty (rustTrim "  ") = true ∧
    SupabaseGateway.list_accounts emptyStore
        { type := none, search := some "  " } =
      SupabaseGateway.list_accounts emptyStore
        { type := none, search := none } ∧
    (SupabaseGateway.list_accounts emptyStore
        { type := none, search := some "  " }).1 = .ok [] :=
  ⟨by decide, (blank_search_treated_absent emptyStore none "  " (by decide)).1,
    (blank_search_treated_absent emptyStore none "  " (by decide)).2 [] rfl⟩

/-- Specification-side description of the §4.2 upsert-by-natural-key
algorithm, written from the spec's words for comparison with the code:
fetch the first row matching the natural-key columns; if a row is found,
extract its id (internal missing-id-column error when absent), issue an
update by that id and re-fetch by id; if no row is found, insert the
payload, obtain a bare identifier and re-fetch the full row by it.
`entity` names the entity in the update failure message. -/
def upsertByKeySpec (store : StoreOracle) (table : String)
    (keyFilters : List (String × String)) (payload : Json)
    (entity : String) : Except String Json × List StoreCall :=
  let keyQuery : SelectQuery :=
    { table := table, filters := keyFilters, order := none, limit := some 1 }
  match store.select keyQuery with
  | .error err =>
    (.error ("failed to query " ++ table ++ ": " ++ err), [.select keyQuery])
  | .ok rows =>
    match rows.head? with
    | some row =>
      match (row.get "id").bind Json.asStr with
      | none => (.error "row missing id column", [.select keyQuery])
      | some id =>
        match store.update table id payload with
        | .error err =>
          (.error ("failed to update " ++ entity ++ ": " ++ err),
           [.select keyQuery, .update table id payload])
        | .ok _ =>
          let idQuery : SelectQuery :=
            { table := table, filters := [("id", id)], order := none,
              limit := some 1 }
          match store.select idQuery with
          | .error err =>
            (.error ("failed to query " ++ table ++ ": " ++ err),
             [.select keyQuery, .update table id payload, .select idQuery])
          | .ok rows2 =>
            (match rows2.head? with
             | some fresh => .ok fresh
             | none =>
               .error (table ++ " record " ++ id ++ " was not found"),
             [.select keyQuery, .update table id payload, .select idQuery])
    | none =>
      match store.insert table payload with
      | .error err =>
        (.error ("failed to insert into " ++ table ++ ": " ++ err),
         [.select keyQuery, .insert table payload])
      | .ok rawId =>
        let id := SupabaseGateway.normalize_id rawId
        let idQuery : SelectQuery :=
          { table := table, filters := [("id", id)], order := none,
            limit := some 1 }
        match store.select idQuery with
        | .error err =>
          (.error ("failed to query " ++ table ++ ": " ++ err),
           [.select keyQuery, .insert table payload, .select idQuery])
        | .ok rows2 =>
          (match rows2.head? with
           | some fresh => .ok fresh
           | none =>
             .error (table ++ " record " ++ id ++ " was not found"),
           [.select keyQuery, .insert table payload, .select idQuery])

/-- C4: both upserts implement exactly the read-then-write algorithm of
the claim — category keyed by name, account keyed by name and type — for
every store behavior and input. -/
theorem upsert_read_then_write (store : StoreOracle) :
    (∀ (input : UpsertCategoryInput) (emb : Option Embedding),
      SupabaseGateway.upsert_category store input emb =
        upsertByKeySpec store "categories" [("name", input.name)]
          (SupabaseGateway.categoryPayload input emb) "category") ∧
    ∀ input : UpsertAccountInput,
      SupabaseGateway.upsert_account store input =
        upsertByKeySpec store "accounts"
          [("name", input.name), ("type", input.type.asRef)]
          (SupabaseGateway.accountPayload input) "account" := by
  constructor
  · intro input emb
    unfold SupabaseGateway.upsert_category upsertByKeySpec
      SupabaseGateway.fetch_first SupabaseGateway.fetch_by_id
      SupabaseGateway.insert_and_fetch SupabaseGateway.extract_id
    cases hs : store.select
        ⟨"categories", [("name", input.name)], none, some 1⟩ with
    | error e => simp [hs]
    | ok rows =>
      cases rows with
      | nil =>
        cases hi : store.insert "categories"
            (SupabaseGateway.categoryPayload input emb) with
        | error e => simp [hs, hi]
        | ok rawId =>
          cases hs2 : store.select
              ⟨"categories",
                [("id", SupabaseGateway.normalize_id rawId)], none,
                some 1⟩ with
          | error e =>
            simp [hs, hi, hs2, SupabaseGateway.fetch_by_id,
              SupabaseGateway.fetch_first]
          | ok rows2 =>
            cases rows2 <;>
              simp [hs, hi, hs2, SupabaseGateway.fetch_by_id,
                SupabaseGateway.fetch_first]
      | cons row rest =>
        cases hid : (row.get "id").bind Json.asStr with
        | none => simp [hs, hid]
        | some i =>
          cases hu : store.update "categories" i
              (SupabaseGateway.categoryPayload input emb) with
          | error e => simp [hs, hid, hu]
          | ok u =>
            cases hs2 : store.select
                ⟨"categories", [("id", i)], none, some 1⟩ with
            | error e =>
              simp [hs, hid, hu, hs2, SupabaseGateway.fetch_by_id,
                SupabaseGateway.fetch_first]
            | ok rows2 =>
              cases rows2 <;>
                simp [hs, hid, hu, hs2, SupabaseGateway.fetch_by_id,
                  SupabaseGateway.fetch_first]
  · intro input
    unfold SupabaseGateway.upsert_account upsertByKeySpec
      SupabaseGateway.fetch_account SupabaseGateway.fetch_first
      SupabaseGateway.fetch_by_id SupabaseGateway.insert_and_fetch
      SupabaseGateway.extract_id
    cases hs : store.select
        ⟨"accounts", [("name", input.name), ("type", input.type.asRef)],
          none, some 1⟩ with
    | error e => simp [hs]
    | ok rows =>
      cases rows with
      | nil =>
        cases hi : store.insert "accounts"
            (SupabaseGateway.accountPayload input) with
        | error e => simp [hs, hi]
        | ok rawId =>
          cases hs2 : store.select
              ⟨"accounts",
                [("id", SupabaseGateway.normalize_id rawId)], none,
                some 1⟩ with
          | error e =>
            simp [hs, hi, hs2, SupabaseGateway.fetch_by_id,
              SupabaseGateway.fetch_first]
          | ok rows2 =>
            cases rows2 <;>
              simp [hs, hi, hs2, SupabaseGateway.fetch_by_id,
                SupabaseGateway.fetch_first]
      | cons row rest =>
        cases hid : (row.get "id").bind Json.asStr with
        | none => simp [hs, hid]
        | some i =>
          cases hu : store.update "accounts" i
              (SupabaseGateway.accountPayload input) with
          | error e => simp [hs, hid, hu]
          | ok u =>
            cases hs2 : store.select
                ⟨"accounts", [("id", i)], none, some 1⟩ with
            | error e =>
              simp [hs, hid, hu, hs2, SupabaseGateway.fetch_by_id,
                SupabaseGateway.fetch_first]
            | ok rows2 =>
              cases rows2 <;>
                simp [hs, hid, hu, hs2, SupabaseGateway.fetch_by_id,
                  SupabaseGateway.fetch_first]

/-- C8: `embed` issues exactly one provider call with the given text;
a failed provider call yields the embedding-request-failed error, a
successful call with zero candidates yields the no-embedding-data error,
and a successful call with candidates yields exactly the first one. -/
theorem embed_contract (provider : Provider) (text : String) :
    (EmbeddingService.embed provider text).calls = [text] ∧
    (∀ msg, provider text = .error msg →
      (EmbeddingService.embed provider text).result =
        .error .requestFailed) ∧
    (provider text = .ok [] →
      (EmbeddingService.embed provider text).result = .error .noData) ∧
    (∀ v rest, provider text = .ok (v :: rest) →
      (EmbeddingService.embed provider text).result = .ok v) := by
  refine ⟨rfl, ?_, ?_, ?_⟩
  · intro msg h; simp [EmbeddingService.embed, h]
  · intro h; simp [EmbeddingService.embed, h]
  · intro v rest h; simp [EmbeddingService.embed, h]

/-- Witness for C8: on a provider returning one candidate, `embed`
returns that first candidate. -/
theorem embed_contract_witness :
    okProvider "sample" = .ok ([] :: []) ∧
    (EmbeddingService.embed okProvider "sample").result = .ok [] :=
  ⟨rfl, (embed_contract okProvider "sample").2.2.2 [] [] rfl⟩

/-- A successful result is an object holding exactly the given named key. -/
def resultEnvelope (key : String) (r : Except McpError Json) : Prop :=
  match r with
  | .ok v => ∃ content, v = .obj [(key, content)]
  | .error _ => True

/-- The `create_transaction` input of the repository's
`create_transaction_skips_embedding_without_description` test. -/
def plainTxInput : CreateTransactionInput :=
  { account_id := "acct-2", amount := 10.0, currency := "USD",
    direction := .income, occurred_at := "2024-01-02T03:04:05Z",
    description := none, raw_source := none }

/-- C9 counterexample: on a store whose insert is accepted but whose
subsequent re-fetch finds no row, `create_transaction` (wired to the
production gateway) returns an internal error — yet the gateway had
already issued the insert and the store accepted it, so a persisted write
is left behind an error result. -/
theorem error_leaves_persisted_write :
    (ExaspoonDbServer.createTransaction okProvider
        (gatewayDatabase emptyStore) plainTxInput).result =
      .error (internal_error "insert transaction"
        "transactions record row-1 was not found") ∧
    (SupabaseGateway.insert_transaction emptyStore plainTxInput none).2 =
      [.insert "transactions"
          (SupabaseGateway.transactionPayload plainTxInput none),
        .select ⟨"transactions", [("id", "row-1")], none, some 1⟩] ∧
    emptyStore.insert "transactions"
        (SupabaseGateway.transactionPayload plainTxInput none) =
      .ok "\"row-1\"" :=
  ⟨rfl, rfl, rfl⟩

/-- C9 (amended): every tool operation either completes and returns a
result whose single named key holds the operation's value, or returns one
of the two caller-visible error shapes with no result populated; the
sequence is not atomic, however — a store write issued before a later
failure (such as an insert whose follow-up re-fetch fails) remains
persisted even though an error is returned. -/
theorem tool_result_envelopes (provider : Provider) (db : Database) :
    (∀ input, resultEnvelope "transaction"
      (ExaspoonDbServer.createTransaction provider db input).result) ∧
    (∀ input, resultEnvelope "matches"
      (ExaspoonDbServer.searchSimilarTransactions provider db input).result) ∧
    (∀ input, resultEnvelope "category"
      (ExaspoonDbServer.upsertCategory provider db input).result) ∧
    (∀ input, resultEnvelope "matches"
      (ExaspoonDbServer.searchSimilarCategories provider db input).result) ∧
    (∀ input, resultEnvelope "accounts"
      (ExaspoonDbServer.listAccounts db input).result) ∧
    (∀ input, resultEnvelope "account"
      (ExaspoonDbServer.upsertAccount provider db input).result) := by
  refine ⟨fun input => ?_, fun input => ?_, fun input => ?_,
    fun input => ?_, fun input => ?_, fun input => ?_⟩
  · cases he : (EmbeddingService.maybeEmbed provider
        input.description).result with
    | error e =>
      simp [ExaspoonDbServer.createTransaction, he, resultEnvelope]
    | ok emb =>
      cases hdb : db.insertTransaction input emb <;>
        simp [ExaspoonDbServer.createTransaction, he, hdb, resultEnvelope]
  · by_cases hq : strIsEmpty (rustTrim input.query) = true
    · simp [ExaspoonDbServer.searchSimilarTransactions, hq, resultEnvelope]
    · cases he : (EmbeddingService.embed provider
          (rustTrim input.query)).result with
      | error e =>
        simp [ExaspoonDbServer.searchSimilarTransactions, hq, he,
          resultEnvelope]
      | ok emb =>
        cases hdb : db.searchSimilarTransactions emb input.limit <;>
          simp [ExaspoonDbServer.searchSimilarTransactions, hq, he, hdb,
            resultEnvelope]
  · cases he : (EmbeddingService.embed provider
        (input.description.getD input.name)).result with
    | error e =>
      simp [ExaspoonDbServer.upsertCategory, he, resultEnvelope]
    | ok emb =>
      cases hdb : db.upsertCategory input (some emb) <;>
        simp [ExaspoonDbServer.upsertCategory, he, hdb, resultEnvelope]
  · by_cases hq : strIsEmpty (rustTrim input.query) = true
    · simp [ExaspoonDbServer.searchSimilarCategories, hq, resultEnvelope]
    · cases he : (EmbeddingService.embed provider
          (rustTrim input.query)).result with
      | error e =>
        simp [ExaspoonDbServer.searchSimilarCategories, hq, he,
          resultEnvelope]
      | ok emb =>
        cases hdb : db.searchSimilarCategories emb input.limit <;>
          simp [ExaspoonDbServer.searchSimilarCategories, hq, he, hdb,
            resultEnvelope]
  · cases hdb : db.listAccounts input <;>
      simp [ExaspoonDbServer.listAccounts, hdb, resultEnvelope]
  · cases he : (EmbeddingService.embed provider input.name).result with
    | error e =>
      simp [ExaspoonDbServer.upsertAccount, he, resultEnvelope]
    | ok emb =>
      cases hdb : db.upsertAccount input <;>
        simp [ExaspoonDbServer.upsertAccount, he, hdb, resultEnvelope]

end Exaspoon
